import Mathlib

/-
Verification of the E-ST incremental reconciliation engine
(src/updater.py and src/api.py) against its specification.

The embedding models:
  * the proleptic Gregorian calendar (as used by Python's datetime),
  * the Europe/Riga time zone (EU daylight-saving rules: UTC+2 standard,
    UTC+3 in summer; transitions at 01:00 UTC on the last Sunday of
    March and of October) including PEP-495 fold-0 disambiguation for
    converting wall-clock times back to epoch instants,
  * the merge-and-accumulate routine async_add_direction_statistics,
  * the month-by-month backfill loop async_add_counter_statistics
    (with explicit fuel; Python exceptions become error outcomes),
  * the Portal Client response formatter _format_stats_response and the
    cold-start seeding built on get_start_timestamp.

Timestamps are integer epoch seconds; energy values and sums are exact
rationals (the Python floats never matter for the properties proved).
-/

namespace EST

/-! ## Calendar (proleptic Gregorian, days since 1970-01-01) -/

/-- Civil date (year, month, day) from a day count since 1970-01-01
(Howard Hinnant's `civil_from_days`, the algorithm underlying C/Python
date conversions). -/
def civilFromDays (z0 : Int) : Int × Int × Int :=
  let z := z0 + 719468
  let era := Int.fdiv z 146097
  let doe := z - era * 146097
  let yoe := Int.fdiv (doe - Int.fdiv doe 1460 + Int.fdiv doe 36524 - Int.fdiv doe 146096) 365
  let y := yoe + era * 400
  let doy := doe - (365 * yoe + Int.fdiv yoe 4 - Int.fdiv yoe 100)
  let mp := Int.fdiv (5 * doy + 2) 153
  let d := doy - Int.fdiv (153 * mp + 2) 5 + 1
  let m := mp + (if mp < 10 then 3 else (-9))
  (if m ≤ 2 then y + 1 else y, m, d)

/-- Day count since 1970-01-01 from a civil date (Hinnant's
`days_from_civil`). -/
def daysFromCivil (y0 m d : Int) : Int :=
  let y := if m ≤ 2 then y0 - 1 else y0
  let era := Int.fdiv y 400
  let yoe := y - era * 400
  let mp := if 2 < m then m - 3 else m + 9
  let doy := Int.fdiv (153 * mp + 2) 5 + d - 1
  let doe := yoe * 365 + Int.fdiv yoe 4 - Int.fdiv yoe 100 + doy
  era * 146097 + doe - 719468

def yearOfDay (z : Int) : Int := (civilFromDays z).1

def monthOfDay (z : Int) : Int := (civilFromDays z).2.1

/-! ## Europe/Riga time zone (`ZoneInfo("Europe/Riga")`)

Standard offset UTC+2 (EET), daylight offset UTC+3 (EEST).  DST is in
effect from 01:00 UTC on the last Sunday of March until 01:00 UTC on the
last Sunday of October. -/

/-- Day count of the last Sunday of a 31-day month (March / October).
1970-01-01 (day 0) was a Thursday, so day `n` is a Sunday iff
`(n + 4) % 7 = 0`. -/
def lastSundayDay (y m : Int) : Int :=
  let n := daysFromCivil y m 31
  n - Int.emod (n + 4) 7

/-- Epoch second at which DST starts in year `y` (01:00 UTC, last Sunday
of March). -/
def dstStart (y : Int) : Int := lastSundayDay y 3 * 86400 + 3600

/-- Epoch second at which DST ends in year `y` (01:00 UTC, last Sunday
of October). -/
def dstEnd (y : Int) : Int := lastSundayDay y 10 * 86400 + 3600

/-- UTC offset (seconds) of Europe/Riga at epoch instant `t`. -/
def rigaOffset (t : Int) : Int :=
  let y := yearOfDay (Int.fdiv t 86400)
  if dstStart y ≤ t ∧ t < dstEnd y then 10800 else 7200

/-- Wall-clock seconds (local civil time as seconds since the local
1970-01-01 00:00) shown by `datetime.fromtimestamp(t, riga)`. -/
def rigaWall (t : Int) : Int := t + rigaOffset t

/-- UTC offset used by `datetime(..., tzinfo=riga, fold=0).timestamp()`
for a naive wall-clock value `w`: fold 0 resolves both ambiguous
(fall-back) and non-existent (spring-forward) wall times with the
pre-transition offset, so the daylight offset applies exactly while the
wall clock is between `dstStart + 3h` and `dstEnd + 3h` (the instants at
which the wall clock first reads 04:00 on transition days). -/
def offsetFromWallFold0 (w : Int) : Int :=
  let y := yearOfDay (Int.fdiv w 86400)
  if dstStart y + 10800 ≤ w ∧ w < dstEnd y + 10800 then 10800 else 7200

/-- Epoch instant of a Riga wall-clock value, with PEP-495 fold = 0. -/
def wallToEpochFold0 (w : Int) : Int := w - offsetFromWallFold0 w

/-- Epoch instant of local midnight of day `n` in Riga.  (Midnights are
never ambiguous nor skipped under these rules, since transitions happen
at 03:00/04:00 local.) -/
def rigaMidnightEpoch (n : Int) : Int := wallToEpochFold0 (n * 86400)

/-! ## Data model (src/api.py) -/

/-- The `DataPoint` of src/api.py as consumed by the updater:
`timestamp` in epoch seconds, `value` an energy delta. -/
structure DataPoint where
  timestamp : Int
  value : ℚ
deriving DecidableEq, Repr

/-- One persisted statistics row: the dict `{"start": dt, "sum": sum}`
appended to `stats` in async_add_direction_statistics, identified by the
epoch instant of its `start` datetime. -/
structure StatRec where
  start : Int
  sum : ℚ
deriving DecidableEq, Repr

/-- Python exceptions that the updater code can raise while merging. -/
inductive PyErr
  | indexError
  | keyError
deriving DecidableEq, Repr

/-- A raw chart item as found in the decoded `data-values` payload:
`item["timestamp"]` is in milliseconds. -/
structure RawPoint where
  timestamp : ℚ
  value : ℚ
deriving DecidableEq, Repr

/-- The `DataPoint` as built by the API formatter, before the updater is
involved: `timestamp` is the raw millisecond value divided by 1000. -/
structure ApiDataPoint where
  timestamp : ℚ
  value : ℚ
deriving DecidableEq, Repr

/-- Model of Api._format_stats_response (src/api.py lines 97-104): the
input function abstracts `data.get("values", {}).get(key, {}).get("total",
{}).get("data", [])` — it yields the item list found under a chart key,
`[]` when any level is absent.  The result models the Python dict built
by inserting `"consumed"` (from key `"A+"`) and then `"returned"` (from
key `"A-"`) as an association list in insertion order. -/
def formatStatsResponse (data : String → List RawPoint) :
    List (String × List ApiDataPoint) :=
  [("consumed", (data "A+").map fun i => ⟨i.timestamp / 1000, i.value⟩),
   ("returned", (data "A-").map fun i => ⟨i.timestamp / 1000, i.value⟩)]

/-! ## Merge-and-accumulate (src/updater.py, async_add_direction_statistics) -/

/-- The timestamp shift applied to every fetched point
(src/updater.py lines 136-137):
`(datetime.fromtimestamp(point.timestamp, riga) - timedelta(hours=1)).timestamp()`.
Subtracting `timedelta(hours=1)` from an aware datetime shifts the wall
clock, so the result is the fold-0 epoch instant of (wall time of `t`)
minus 3600.  (Instants whose local time falls in the repeated fall-back
hour get fold = 1 from `fromtimestamp`, but their wall time minus one
hour is never ambiguous nor in a gap, so the fold-0 conversion agrees.) -/
def shiftTs (t : Int) : Int := wallToEpochFold0 (rigaWall t - 3600)

/-- The `for point in data_points` loop of async_add_direction_statistics
(src/updater.py lines 133-148): skip a point when
`current_timestamp >= point_timestamp`, otherwise advance
`current_timestamp`, add the value to `sum` and append a stats row.
Returns (stats, current_timestamp, sum). -/
def mergeFold : List DataPoint → Int → ℚ → List StatRec × Int × ℚ
  | [], current, s => ([], current, s)
  | p :: ps, current, s =>
    let pt := shiftTs p.timestamp
    if current ≥ pt then mergeFold ps current s
    else
      let s1 := s + p.value
      let r := mergeFold ps pt s1
      (⟨pt, s1⟩ :: r.1, r.2)

/-- async_add_direction_statistics (src/updater.py lines 114-161) after
the merge loop: the unconditional `first = stats[0]` raises `IndexError`
on an empty `stats` list; otherwise the batch is written (the write
happens exactly on the `.ok` path, since `stats` is then non-empty) and
`(current_timestamp, sum)` is returned. -/
def asyncAddDirectionStatistics (points : List DataPoint)
    (lastTimestamp : Int) (s : ℚ) : Except PyErr (List StatRec × Int × ℚ) :=
  let r := mergeFold points lastTimestamp s
  if r.1 = [] then .error .indexError else .ok r

/-! ## Backfill loop (src/updater.py, async_add_counter_statistics) -/

/-- How async_add_counter_statistics terminates for a meter.  Python
exceptions escaping the loop are explicit outcomes. -/
inductive Outcome
  | caughtUp
  | emptyFetch
  | noProgress
  | noStart
  | indexError
  | keyError
  | outOfFuel
deriving DecidableEq, Repr

def Outcome.ofErr : PyErr → Outcome
  | .indexError => .indexError
  | .keyError => .keyError

/-- The wall-clock day of `start_date` (src/updater.py lines 67-69):
`fromtimestamp(last_timestamp).replace(hour=0,...) + timedelta(days=1)`. -/
def startDay (lastTimestamp : Int) : Int :=
  Int.fdiv (rigaWall lastTimestamp) 86400 + 1

/-- Epoch instant of `start_date`; aware datetimes compare by instant. -/
def startDateEpoch (lastTimestamp : Int) : Int :=
  rigaMidnightEpoch (startDay lastTimestamp)

/-- One batch handed to async_add_external_statistics: the direction key
of the statistic and the stats rows written. -/
abbrev Write := String × List StatRec

/-- The `while True` loop of async_add_counter_statistics (src/updater.py
lines 65-112), with explicit fuel.  `fetch` abstracts
`api.get_month_data(counter.id, year, month, GRANULARITY_HOUR)`, whose
result is the association list built by `_format_stats_response` (the
Python dict); `if not data_points` is the dict truthiness test.
Accumulates the writes performed before returning or raising. -/
def counterLoop (fetch : Int → Int → List (String × List DataPoint))
    (todayStart : Int) :
    Nat → Int → ℚ → ℚ → List Write × Outcome
  | 0, _, _, _ => ([], .outOfFuel)
  | fuel + 1, lastTimestamp, consumptionSum, returnedSum =>
    let d := startDay lastTimestamp
    if rigaMidnightEpoch d ≥ todayStart then ([], .caughtUp)
    else
      let dataPoints := fetch (yearOfDay d) (monthOfDay d)
      if dataPoints = [] then ([], .emptyFetch)
      else
        match dataPoints.lookup "consumed" with
        | none => ([], .keyError)
        | some cPts =>
          match asyncAddDirectionStatistics cPts lastTimestamp consumptionSum with
          | .error e => ([], Outcome.ofErr e)
          | .ok (cStats, current, cSum1) =>
            match dataPoints.lookup "returned" with
            | none => ([("consumed", cStats)], .keyError)
            | some rPts =>
              match asyncAddDirectionStatistics rPts lastTimestamp returnedSum with
              | .error e => ([("consumed", cStats)], Outcome.ofErr e)
              | .ok (rStats, _, rSum1) =>
                if current = lastTimestamp then
                  ([("consumed", cStats), ("returned", rStats)], .noProgress)
                else
                  let rest := counterLoop fetch todayStart fuel current cSum1 rSum1
                  (("consumed", cStats) :: ("returned", rStats) :: rest.1, rest.2)

/-- Api.get_start_timestamp (src/api.py lines 216-235) when the
date-picker hint is present and parses as the civil date (y, m, d):
`strptime(s, "%Y-%m-%d").replace(tzinfo=riga).timestamp()`, i.e. the
fold-0 epoch instant of that date's local midnight. -/
def getStartTimestampOf (y m d : Int) : Int :=
  rigaMidnightEpoch (daysFromCivil y m d)

/-- Cold-start seeding (src/updater.py lines 61-63):
`(fromtimestamp(start_timestamp).replace(hour=0,...) - timedelta(days=1)).timestamp()`. -/
def coldStartLast (startTimestamp : Int) : Int :=
  rigaMidnightEpoch (Int.fdiv (rigaWall startTimestamp) 86400 - 1)

/-- Python truthiness of an optional timestamp: `None` and `0` are falsy
(the source tests `if not last_timestamp` / `if not start_timestamp`). -/
def pyTruthyTs : Option Int → Bool
  | none => false
  | some t => !(t == 0)

/-- async_add_counter_statistics (src/updater.py lines 44-112).
`consumedLast` / `returnedLast` model async_get_last_statistic for the
two statistic ids: `some (start, sum)` of the latest stored record, or
`none` (in which case the sum defaults to 0).  `startTimestamp` models
the api.get_start_timestamp result on the cold-start path. -/
def asyncAddCounterStatistics
    (fetch : Int → Int → List (String × List DataPoint)) (todayStart : Int)
    (consumedLast returnedLast : Option (Int × ℚ))
    (startTimestamp : Option Int) (fuel : Nat) : List Write × Outcome :=
  let lastOpt := consumedLast.map Prod.fst
  let consumptionSum := (consumedLast.map Prod.snd).getD 0
  let returnedSum := (returnedLast.map Prod.snd).getD 0
  if pyTruthyTs lastOpt then
    counterLoop fetch todayStart fuel (lastOpt.getD 0) consumptionSum returnedSum
  else if pyTruthyTs startTimestamp then
    counterLoop fetch todayStart fuel (coldStartLast (startTimestamp.getD 0))
      consumptionSum returnedSum
  else ([], .noStart)

/-! ## Spec-side definition for the de-duplication claim

The specification's reading of merge-and-accumulate: accept exactly the
points whose shifted timestamp exceeds the (fixed) input
`last_timestamp`, accumulating the running sum over the accepted
points. -/

/-- Accumulate every point of the list into a record. -/
def specAccum : List DataPoint → ℚ → List StatRec
  | [], _ => []
  | p :: ps, s => ⟨shiftTs p.timestamp, s + p.value⟩ :: specAccum ps (s + p.value)

/-- Records predicted by the spec sentence "skip any point whose shifted
timestamp is `<= last_timestamp`" (and accept the rest). -/
def specMerge (points : List DataPoint) (lastTimestamp : Int) (s : ℚ) :
    List StatRec :=
  specAccum (points.filter fun p => lastTimestamp < shiftTs p.timestamp) s

/-! ## Helper lemmas about the merge loop -/

theorem mergeFold_all_skipped (points : List DataPoint) :
    ∀ (current : Int) (s : ℚ),
      (∀ p ∈ points, shiftTs p.timestamp ≤ current) →
      mergeFold points current s = ([], current, s) := by
  induction points with
  | nil => intro current s _; rfl
  | cons p ps ih =>
    intro current s h
    have hp : shiftTs p.timestamp ≤ current := h p (List.mem_cons_self p ps)
    simp only [mergeFold, if_pos hp]
    exact ih current s fun q hq => h q (List.mem_cons_of_mem p hq)

theorem mergeFold_chain (points : List DataPoint) :
    ∀ (current : Int) (s : ℚ),
      List.Chain' (· < ·)
        (current :: ((mergeFold points current s).1.map StatRec.start)) ∧
      current ≤ (mergeFold points current s).2.1 ∧
      ((mergeFold points current s).1 ≠ [] →
        current < (mergeFold points current s).2.1) ∧
      ((mergeFold points current s).1 = [] →
        (mergeFold points current s).2 = (current, s)) := by
  induction points with
  | nil =>
    intro current s
    refine ⟨List.chain'_singleton current, le_refl current, ?_, fun _ => rfl⟩
    intro hne; exact absurd rfl hne
  | cons p ps ih =>
    intro current s
    by_cases hc : current ≥ shiftTs p.timestamp
    · simp only [mergeFold, if_pos hc]
      exact ih current s
    · have hlt : current < shiftTs p.timestamp := lt_of_not_ge hc
      simp only [mergeFold, if_neg hc]
      obtain ⟨ih1, ih2, _, _⟩ := ih (shiftTs p.timestamp) (s + p.value)
      refine ⟨?_, le_of_lt (lt_of_lt_of_le hlt ih2),
        fun _ => lt_of_lt_of_le hlt ih2, ?_⟩
      · simpa using List.chain'_cons.mpr ⟨hlt, ih1⟩
      · intro hh; exact absurd hh (List.cons_ne_nil _ _)

theorem mergeFold_sums (points : List DataPoint) :
    ∀ (current : Int) (s : ℚ), (∀ p ∈ points, 0 ≤ p.value) →
      List.Chain' (· ≤ ·)
        (s :: ((mergeFold points current s).1.map StatRec.sum)) ∧
      s ≤ (mergeFold points current s).2.2 := by
  induction points with
  | nil =>
    intro current s _
    exact ⟨List.chain'_singleton s, le_refl s⟩
  | cons p ps ih =>
    intro current s h
    have hp : 0 ≤ p.value := h p (List.mem_cons_self p ps)
    have hrest : ∀ q ∈ ps, 0 ≤ q.value := fun q hq => h q (List.mem_cons_of_mem p hq)
    by_cases hc : current ≥ shiftTs p.timestamp
    · simp only [mergeFold, if_pos hc]
      exact ih current s hrest
    · simp only [mergeFold, if_neg hc]
      obtain ⟨ih1, ih2⟩ := ih (shiftTs p.timestamp) (s + p.value) hrest
      have hs : s ≤ s + p.value := le_add_of_nonneg_right hp
      refine ⟨?_, le_trans hs ih2⟩
      simpa using List.chain'_cons.mpr ⟨hs, ih1⟩

theorem mergeFold_spec_of_strictMono (points : List DataPoint) :
    ∀ (lastTimestamp : Int) (s : ℚ),
      List.Chain' (· < ·) (points.map fun p => shiftTs p.timestamp) →
      (mergeFold points lastTimestamp s).1 = specMerge points lastTimestamp s := by
  induction points with
  | nil => intro lastTimestamp s _; rfl
  | cons p ps ih =>
    intro lastTimestamp s h
    rw [List.map_cons] at h
    have htail : List.Chain' (· < ·) (ps.map fun p => shiftTs p.timestamp) :=
      h.tail
    have hall : ∀ q ∈ ps, shiftTs p.timestamp < shiftTs q.timestamp := by
      have hpair := List.chain'_iff_pairwise.mp h
      intro q hq
      exact (List.pairwise_cons.mp hpair).1 _ (List.mem_map_of_mem _ hq)
    by_cases hc : lastTimestamp ≥ shiftTs p.timestamp
    · have hfilter : (decide (lastTimestamp < shiftTs p.timestamp)) = false := by
        simpa using hc
      simp only [mergeFold, if_pos hc, specMerge, List.filter_cons, hfilter]
      exact ih lastTimestamp s htail
    · have hlt : lastTimestamp < shiftTs p.timestamp := lt_of_not_ge hc
      have hfilter : (decide (lastTimestamp < shiftTs p.timestamp)) = true := by
        simpa using hlt
      have hkeep1 : ps.filter (fun q => lastTimestamp < shiftTs q.timestamp) = ps :=
        List.filter_eq_self.mpr fun q hq => by
          simpa using lt_trans hlt (hall q hq)
      have hkeep2 :
          ps.filter (fun q => shiftTs p.timestamp < shiftTs q.timestamp) = ps :=
        List.filter_eq_self.mpr fun q hq => by simpa using hall q hq
      simp only [mergeFold, if_neg hc, specMerge, List.filter_cons, hfilter,
        if_true, specAccum, hkeep1]
      have := ih (shiftTs p.timestamp) (s + p.value) htail
      rw [specMerge, hkeep2] at this
      simpa using this

theorem counterLoop_consumed_stale
    (fetch : Int → Int → List (String × List DataPoint)) (todayStart : Int)
    (fuel : Nat) (lastTimestamp : Int) (consumptionSum returnedSum : ℚ)
    (cPts : List DataPoint) (rest : List (String × List DataPoint))
    (hsd : rigaMidnightEpoch (startDay lastTimestamp) < todayStart)
    (hf : fetch (yearOfDay (startDay lastTimestamp))
        (monthOfDay (startDay lastTimestamp)) = ("consumed", cPts) :: rest)
    (hstale : ∀ p ∈ cPts, shiftTs p.timestamp ≤ lastTimestamp) :
    counterLoop fetch todayStart (fuel + 1) lastTimestamp consumptionSum returnedSum
      = ([], .indexError) := by
  have hm := mergeFold_all_skipped cPts lastTimestamp consumptionSum hstale
  have hmerge : asyncAddDirectionStatistics cPts lastTimestamp consumptionSum
      = .error .indexError := by
    simp [asyncAddDirectionStatistics, hm]
  simp only [counterLoop]
  rw [if_neg (not_le.mpr hsd), hf]
  simp [List.lookup, hmerge, Outcome.ofErr]

/-! ## Claim theorems -/

/-- C1: when no point is accepted (every shifted timestamp is at most
`last_timestamp`, including an empty point list), async_add_direction_statistics
does not return the input pair unchanged — the unconditional `stats[0]`
raises `IndexError`.  This contradicts the claim (and the dead
`"No satats added"` logging branch shows the return was intended). -/
theorem c1_nothing_accepted_raises (points : List DataPoint)
    (lastTimestamp : Int) (s : ℚ)
    (h : ∀ p ∈ points, shiftTs p.timestamp ≤ lastTimestamp) :
    asyncAddDirectionStatistics points lastTimestamp s = .error .indexError := by
  simp [asyncAddDirectionStatistics,
    mergeFold_all_skipped points lastTimestamp s h]

theorem c1_witness :
    (∀ p ∈ [(⟨3700, 5⟩ : DataPoint)], shiftTs p.timestamp ≤ 100) ∧
    asyncAddDirectionStatistics [⟨3700, 5⟩] 100 0 = .error .indexError :=
  ⟨by decide, c1_nothing_accepted_raises [⟨3700, 5⟩] 100 0 (by decide)⟩

/-- C2: a monthly fetch with empty point lists for both directions does
not stop the loop at the `if not data_points` check — the formatted
response is a dict with the two keys `consumed`/`returned`, which is
truthy even when both lists are empty, so the loop proceeds into the
CONSUMED merge and raises `IndexError` there instead of breaking
cleanly. -/
theorem c2_empty_fetch_raises
    (fetch : Int → Int → List (String × List DataPoint)) (todayStart : Int)
    (fuel : Nat) (lastTimestamp : Int) (consumptionSum returnedSum : ℚ)
    (hsd : rigaMidnightEpoch (startDay lastTimestamp) < todayStart)
    (hf : fetch (yearOfDay (startDay lastTimestamp))
        (monthOfDay (startDay lastTimestamp))
      = [("consumed", []), ("returned", [])]) :
    counterLoop fetch todayStart (fuel + 1) lastTimestamp consumptionSum returnedSum
      = ([], .indexError) :=
  counterLoop_consumed_stale fetch todayStart fuel lastTimestamp consumptionSum
    returnedSum [] [("returned", [])] hsd hf (by simp)

theorem c2_witness :
    rigaMidnightEpoch (startDay 1704495600) < 1729996200 ∧
    counterLoop (fun _ _ => [("consumed", []), ("returned", [])]) 1729996200
      (0 + 1) 1704495600 0 0 = ([], .indexError) :=
  ⟨by decide,
    c2_empty_fetch_raises (fun _ _ => [("consumed", []), ("returned", [])])
      1729996200 0 1704495600 0 0 (by decide) rfl⟩

/-- C3: a second reconciliation run over unchanged portal data (the
store already holds the first run's records, so every fetched CONSUMED
point has shifted timestamp at most `last_timestamp`) persists nothing,
but it does not terminate via the no-progress stop: the CONSUMED merge
raises `IndexError` before the `current_timestamp == last_timestamp`
check is ever reached. -/
theorem c3_second_run_raises
    (fetch : Int → Int → List (String × List DataPoint)) (todayStart : Int)
    (fuel : Nat) (lastTimestamp : Int) (consumptionSum returnedSum : ℚ)
    (cPts : List DataPoint) (rest : List (String × List DataPoint))
    (hsd : rigaMidnightEpoch (startDay lastTimestamp) < todayStart)
    (hf : fetch (yearOfDay (startDay lastTimestamp))
        (monthOfDay (startDay lastTimestamp)) = ("consumed", cPts) :: rest)
    (hstale : ∀ p ∈ cPts, shiftTs p.timestamp ≤ lastTimestamp) :
    counterLoop fetch todayStart (fuel + 1) lastTimestamp consumptionSum returnedSum
      = ([], .indexError) :=
  counterLoop_consumed_stale fetch todayStart fuel lastTimestamp consumptionSum
    returnedSum cPts rest hsd hf hstale

theorem c3_witness :
    rigaMidnightEpoch (startDay 1704578400) < 1729996200 ∧
    (∀ p ∈ [(⟨1704582000, 2⟩ : DataPoint)], shiftTs p.timestamp ≤ 1704578400) ∧
    counterLoop
      (fun _ _ => [("consumed", [⟨1704582000, 2⟩]), ("returned", [])])
      1729996200 (0 + 1) 1704578400 2 0 = ([], .indexError) :=
  ⟨by decide, by decide,
    c3_second_run_raises
      (fun _ _ => [("consumed", [⟨1704582000, 2⟩]), ("returned", [])])
      1729996200 0 1704578400 2 0 [⟨1704582000, 2⟩] [("returned", [])]
      (by decide) rfl (by decide)⟩

/-- C4: for non-decreasing input timestamps and non-negative values, the
records built by the merge loop have strictly increasing `start`
timestamps and non-decreasing sums, each at least the input running
sum. -/
theorem c4_monotone (points : List DataPoint) (lastTimestamp : Int) (s : ℚ)
    (_hts : List.Chain' (· ≤ ·) (points.map DataPoint.timestamp))
    (hv : ∀ p ∈ points, 0 ≤ p.value) :
    List.Chain' (· < ·) ((mergeFold points lastTimestamp s).1.map StatRec.start) ∧
    List.Chain' (· ≤ ·) ((mergeFold points lastTimestamp s).1.map StatRec.sum) ∧
    ∀ r ∈ (mergeFold points lastTimestamp s).1, s ≤ r.sum := by
  obtain ⟨h1, -, -, -⟩ := mergeFold_chain points lastTimestamp s
  obtain ⟨h2, -⟩ := mergeFold_sums points lastTimestamp s hv
  refine ⟨h1.tail, h2.tail, ?_⟩
  intro r hr
  have hp := List.chain'_iff_pairwise.mp h2
  exact (List.pairwise_cons.mp hp).1 r.sum (List.mem_map_of_mem StatRec.sum hr)

theorem c4_witness :
    List.Chain' (· ≤ ·)
      ([(⟨1704498000, 5/2⟩ : DataPoint), ⟨1704501600, 3⟩].map DataPoint.timestamp) ∧
    (∀ p ∈ [(⟨1704498000, 5/2⟩ : DataPoint), ⟨1704501600, 3⟩], 0 ≤ p.value) ∧
    (List.Chain' (· < ·)
      ((mergeFold [⟨1704498000, 5/2⟩, ⟨1704501600, 3⟩] 1704000000 1).1.map
        StatRec.start) ∧
    List.Chain' (· ≤ ·)
      ((mergeFold [⟨1704498000, 5/2⟩, ⟨1704501600, 3⟩] 1704000000 1).1.map
        StatRec.sum) ∧
    ∀ r ∈ (mergeFold [⟨1704498000, 5/2⟩, ⟨1704501600, 3⟩] 1704000000 1).1,
      1 ≤ r.sum) :=
  ⟨by simp [List.chain'_cons, List.chain'_singleton],
    by norm_num [List.forall_mem_cons],
    c4_monotone [⟨1704498000, 5/2⟩, ⟨1704501600, 3⟩] 1704000000 1
      (by simp [List.chain'_cons, List.chain'_singleton])
      (by norm_num [List.forall_mem_cons])⟩

/-- C5 (counterexample): at 2024-10-27 02:30 UTC, one UTC hour after the
Europe/Riga fall-back transition, the aware-datetime subtraction of
`timedelta(hours=1)` moves the wall clock into the repeated hour, which
fold 0 resolves with the pre-transition (summer) offset: the stored
start is the portal timestamp minus 7200 seconds, not minus 3600. -/
theorem c5_counterexample : shiftTs 1729996200 ≠ 1729996200 - 3600 := by decide

/-- C5 (amended): the stored start equals the portal timestamp minus
exactly 3600 seconds whenever the fold-0 offset of the shifted wall time
equals the offset at the point's instant — i.e. for every instant that is
not within the one wall-clock hour following a DST transition. -/
theorem c5_shift_one_hour (t : Int)
    (h : offsetFromWallFold0 (rigaWall t - 3600) = rigaOffset t) :
    shiftTs t = t - 3600 := by
  unfold shiftTs wallToEpochFold0
  rw [h]
  unfold rigaWall
  omega

theorem c5_witness :
    offsetFromWallFold0 (rigaWall 1704498000 - 3600) = rigaOffset 1704498000 ∧
    shiftTs 1704498000 = 1704498000 - 3600 :=
  ⟨by decide, c5_shift_one_hour 1704498000 (by decide)⟩

/-- C6 (counterexample): with two points whose shifted timestamps are
equal (both 100) and `last_timestamp = 50`, the claim predicts both
points accepted (both exceed 50); the code skips the second one because
the comparison is against the advancing `current_timestamp`, not the
fixed `last_timestamp`. -/
theorem c6_counterexample :
    (mergeFold [⟨3700, 5⟩, ⟨3700, 3⟩] 50 0).1
      ≠ specMerge [⟨3700, 5⟩, ⟨3700, 3⟩] 50 0 := by
  have h1 : shiftTs 3700 = 100 := by decide
  simp [mergeFold, specMerge, specAccum, List.filter, h1]

/-- C6 (amended): the merge loop skips a point whose shifted timestamp is
at most the running `current_timestamp` (initially `last_timestamp`,
advanced to each accepted point's shifted timestamp); when the shifted
timestamps are strictly increasing this accepts exactly the points whose
shifted timestamp exceeds `last_timestamp`, as the claim states — in
particular, for shifted points `[{t=100,v=5},{t=200,v=3}]` and
`last_timestamp=150` only the second is accepted, emitting
`{start:200, sum:prior_sum+3}`. -/
theorem c6_dedup (points : List DataPoint) (lastTimestamp : Int) (s : ℚ)
    (h : List.Chain' (· < ·) (points.map fun p => shiftTs p.timestamp)) :
    (mergeFold points lastTimestamp s).1 = specMerge points lastTimestamp s :=
  mergeFold_spec_of_strictMono points lastTimestamp s h

theorem c6_witness :
    List.Chain' (· < ·)
      ([(⟨3700, 5⟩ : DataPoint), ⟨3800, 3⟩].map fun p => shiftTs p.timestamp) ∧
    (mergeFold [⟨3700, 5⟩, ⟨3800, 3⟩] 150 0).1
      = specMerge [⟨3700, 5⟩, ⟨3800, 3⟩] 150 0 ∧
    specMerge [⟨3700, 5⟩, ⟨3800, 3⟩] 150 0 = [⟨200, 3⟩] := by
  have h1 : shiftTs 3700 = 100 := by decide
  have h2 : shiftTs 3800 = 200 := by decide
  refine ⟨?_, c6_dedup [⟨3700, 5⟩, ⟨3800, 3⟩] 150 0 ?_, ?_⟩
  · simp [List.chain'_cons, List.chain'_singleton, h1, h2]
  · simp [List.chain'_cons, List.chain'_singleton, h1, h2]
  · simp [specMerge, specAccum, List.filter, h1, h2]

/-- C7: on cold start, when get_start_timestamp reports the earliest
date (y, m, d) — i.e. that date's local midnight — the seeded
`last_timestamp` is the local midnight of the previous day.  The
hypothesis states that the two offset computations agree at that
midnight, which holds for every actual date since Riga's DST transitions
happen at 03:00/04:00 local time, never at midnight. -/
theorem c7_cold_start (y m d : Int)
    (h : rigaOffset (getStartTimestampOf y m d)
       = offsetFromWallFold0 (daysFromCivil y m d * 86400)) :
    coldStartLast (getStartTimestampOf y m d)
      = rigaMidnightEpoch (daysFromCivil y m d - 1) := by
  have hwall : rigaWall (getStartTimestampOf y m d)
      = daysFromCivil y m d * 86400 := by
    unfold getStartTimestampOf rigaMidnightEpoch wallToEpochFold0 at h ⊢
    unfold rigaWall
    omega
  unfold coldStartLast
  rw [hwall, Int.mul_fdiv_cancel _ (by norm_num)]

theorem c7_witness :
    rigaOffset (getStartTimestampOf 2024 3 10)
      = offsetFromWallFold0 (daysFromCivil 2024 3 10 * 86400) ∧
    coldStartLast (getStartTimestampOf 2024 3 10)
      = rigaMidnightEpoch (daysFromCivil 2024 3 10 - 1) ∧
    daysFromCivil 2024 3 10 - 1 = daysFromCivil 2024 3 9 ∧
    getStartTimestampOf 2024 3 10 = 1710021600 ∧
    rigaMidnightEpoch (daysFromCivil 2024 3 9) = 1709935200 :=
  ⟨by decide, c7_cold_start 2024 3 10 (by decide), by decide, by decide,
    by decide⟩

/-- C8: an iteration whose `start_date` is at or after today's midnight
returns CAUGHT_UP immediately: the result does not depend on the fetch
function and nothing is written. -/
theorem c8_caught_up (fetch : Int → Int → List (String × List DataPoint))
    (todayStart : Int) (fuel : Nat) (lastTimestamp : Int)
    (consumptionSum returnedSum : ℚ)
    (h : startDateEpoch lastTimestamp ≥ todayStart) :
    counterLoop fetch todayStart (fuel + 1) lastTimestamp consumptionSum returnedSum
      = ([], .caughtUp) := by
  unfold startDateEpoch at h
  simp only [counterLoop]
  rw [if_pos h]

theorem c8_witness :
    startDateEpoch 1704495600 ≥ 1704578400 ∧
    counterLoop (fun _ _ => []) 1704578400 (0 + 1) 1704495600 0 0
      = ([], .caughtUp) :=
  ⟨by decide, c8_caught_up (fun _ _ => []) 1704578400 0 1704495600 0 0 (by decide)⟩

/-- C9: with no watermark and no discoverable earliest timestamp,
async_add_counter_statistics returns normally, writing nothing and
raising no error. -/
theorem c9_no_start (fetch : Int → Int → List (String × List DataPoint))
    (todayStart : Int) (fuel : Nat) :
    asyncAddCounterStatistics fetch todayStart none none none fuel
      = ([], .noStart) := rfl

/-- C10: _format_stats_response always yields exactly the two keys
`consumed` and `returned` in that order, so the mapping is never empty
and indexing by either direction succeeds, whatever the decoded chart
payload contained. -/
theorem c10_format_keys (data : String → List RawPoint) :
    (formatStatsResponse data).map Prod.fst = ["consumed", "returned"] ∧
    formatStatsResponse data ≠ [] ∧
    ((formatStatsResponse data).lookup "consumed").isSome = true ∧
    ((formatStatsResponse data).lookup "returned").isSome = true := by
  refine ⟨rfl, ?_, rfl, rfl⟩
  simp [formatStatsResponse]

end EST
